import Mathlib

/-!
Shallow embedding of the BindCraft design-loop script (`no_filtering.py`).

The script drives an outer `while True` loop: it checks two stop conditions,
samples a design name, deduplicates against four trajectory-stage
directories, invokes `binder_hallucination`, scores the trajectory, and runs
an MPNN sequence-redesign sub-loop with an acceptance cap.

Collaborator calls (structure generation, prediction, relaxation, scoring,
filters, the filesystem) are modelled as oracles supplied per iteration and
per candidate; every externally visible action of the script (a collaborator
call, a CSV row append, a file copy/removal, a log line) is recorded as an
`Event` in a trace, so that claims about control flow become claims about
the trace emitted by a pure step function.
-/

namespace BindCraft

/-- A single field of a CSV row: a string, a machine integer, an opaque
scalar metric value of type `α`, or an optional metric (the result of a
Python `dict.get(k, None)`). -/
inductive Cell (α : Type) where
  | str : String → Cell α
  | num : Nat → Cell α
  | val : α → Cell α
  | opt : Option α → Cell α
  deriving DecidableEq, Repr

/-- Python `d.get(k, None)` on a string-keyed mapping. -/
def dictGet {β : Type} (m : List (String × β)) (k : String) : Option β :=
  (m.find? (fun kv => kv.1 == k)).map (fun kv => kv.2)

/-- `os.path.join` for the paths the script builds. -/
def joinPath (d f : String) : String := d ++ "/" ++ f

/-- Externally visible actions of one run of the script, in program order. -/
inductive Event (α : Type) where
  | checkQuota : Bool → Event α
  | checkBudget : Bool → Event α
  | logSkip : String → Event α
  | hallucinate : String → Event α
  | relaxTraj : String → Event α
  | trajRow : List (Cell α) → Event α
  | logTerminated : String → Event α
  | mpnnGen : String → Event α
  | logStopAfterMpnn : String → Event α
  | predictComplex : String → Event α
  | predictMonomer : String → Event α
  | initialFilterLog : String → Bool → Event α
  | relaxCand : String → Event α
  | mpnnRow : List (Cell α) → Event α
  | finalFilterLog : String → Bool → Event α
  | copyFile : String → String → Event α
  | finalRow : List (Cell α) → Event α
  | removeFile : String → Event α
  | failLog : String → Event α
  deriving DecidableEq, Repr

/-- The configuration visible to the loop: `target_settings` fields,
`advanced_settings` fields the loop reads directly, and the raw
boolean-valued advanced-settings mapping used for `.get` lookups. -/
structure Settings (α : Type) where
  binder_name : String
  design_paths : String → String
  design_algorithm : String
  target_hotspot_residues : α
  enable_mpnn : Bool
  max_mpnn_sequences : Nat
  advFlags : List (String × Bool)
  remove_unrelaxed_complex : Bool
  remove_binder_monomer : Bool
  remove_unrelaxed_trajectory : Bool

/-- `advanced_settings.get("stop_after_mpnn_generation", False)`. -/
def stop_after_mpnn_generation {α : Type} (s : Settings α) : Bool :=
  (dictGet s.advFlags "stop_after_mpnn_generation").getD false

/-- Abstraction of the numeric operations applied to metric values:
`round(v, 2) if isinstance(v, float) else v`. -/
structure Model (α : Type) where
  round2 : α → α
  isFloat : α → Bool

/-- Oracle for one MPNN candidate: results of the prediction, relaxation
and scoring collaborators and of the two filter evaluations. -/
structure CandOracle (α : Type) where
  complexOk : Bool
  complexMetrics : List (String × α)
  monomerMetrics : List (String × α)
  monomerPdb : String
  initialPass : Bool
  finalPass : Bool
  interfaceResidues : α
  i_plddt : α
  ss_plddt : α
  num_clashes : α
  num_clashes_relaxed : α
  interfaceScores : String → α
  seqNotes : α
  ssAlpha : α
  ssBeta : α
  ssLoops : α
  ssAlphaI : α
  ssBetaI : α
  ssLoopsI : α
  binderRmsd : α
  interfaceRmsd : α
  targetRmsd : α

/-- The per-trajectory data in scope inside the MPNN sub-loop:
`design_name`, the sampled `length` and `seed`, the helicity value and
the (rounded) `trajectory_metrics` mapping. -/
structure TrajCtx (α : Type) where
  design_name : String
  length : Nat
  seed : Nat
  helicity_value : α
  trajMetrics : List (String × α)

/-- The `mpnn_data` row assembled for one validated candidate
(`no_filtering.py`, lines 275-284), field by field in source order. -/
def mpnn_data {α : Type} (s : Settings α) (ctx : TrajCtx α) (i : Nat)
    (seq : String) (score : α) (o : CandOracle α) : List (Cell α) :=
  [Cell.str (ctx.design_name ++ "_mpnn_" ++ toString i), Cell.str s.design_algorithm,
   Cell.num ctx.length, Cell.num ctx.seed, Cell.val ctx.helicity_value,
   Cell.val s.target_hotspot_residues, Cell.str seq, Cell.val o.interfaceResidues,
   Cell.val score,
   Cell.opt (dictGet o.complexMetrics "plddt"), Cell.opt (dictGet o.complexMetrics "ptm"),
   Cell.opt (dictGet o.complexMetrics "i_ptm"), Cell.opt (dictGet o.complexMetrics "pae"),
   Cell.opt (dictGet o.complexMetrics "i_pae"), Cell.val o.i_plddt, Cell.val o.ss_plddt,
   Cell.val o.num_clashes, Cell.val o.num_clashes_relaxed,
   Cell.val (o.interfaceScores "binder_score"),
   Cell.val (o.interfaceScores "surface_hydrophobicity"),
   Cell.val (o.interfaceScores "interface_sc"),
   Cell.val (o.interfaceScores "interface_packstat"),
   Cell.val (o.interfaceScores "interface_dG"),
   Cell.val (o.interfaceScores "interface_dSASA"),
   Cell.val (o.interfaceScores "interface_dG_SASA_ratio"),
   Cell.val (o.interfaceScores "interface_hb_bb_sc"),
   Cell.val (o.interfaceScores "interface_hb_sc_sc"),
   Cell.val (o.interfaceScores "interface_hb_bb_bb_longrange"),
   Cell.val (o.interfaceScores "interface_hb_bb_bb_shortrange"),
   Cell.val o.ssAlpha, Cell.val o.ssBeta, Cell.val o.ssLoops,
   Cell.val o.ssAlphaI, Cell.val o.ssBetaI, Cell.val o.ssLoopsI,
   Cell.opt (dictGet o.monomerMetrics "plddt"), Cell.opt (dictGet o.monomerMetrics "ptm"),
   Cell.opt (dictGet o.monomerMetrics "pae"),
   Cell.val o.binderRmsd, Cell.val o.interfaceRmsd, Cell.val o.targetRmsd,
   Cell.val o.seqNotes, Cell.opt (dictGet ctx.trajMetrics "helix_probability")]

/-- One pass of the MPNN candidate loop body for candidate `i`
(`no_filtering.py`, lines 230-312): the two prediction calls, then — when
the complex prediction returned a structure — the advisory initial filter,
relaxation, scoring, the unconditional `mpnn_csv` append, the final filter
and, on pass, the three copies into `MPNN/Accepted` plus the `final_csv`
append, then the cleanup removals; when the complex prediction failed,
only the failure log line.  The returned Bool is whether `mpnn_passes` is
incremented. -/
def candStep {α : Type} (s : Settings α) (ctx : TrajCtx α) (i : Nat)
    (seq : String) (score : α) (o : CandOracle α) : List (Event α) × Bool :=
  let name := ctx.design_name ++ "_mpnn_" ++ toString i
  let pdbFile := name ++ ".pdb"
  let complexPath := joinPath (s.design_paths "MPNN/Complex") pdbFile
  let relaxedPath := joinPath (s.design_paths "MPNN/Relaxed") pdbFile
  if o.complexOk then
    let row := mpnn_data s ctx i seq score o
    let acceptEvs :=
      if o.finalPass then
        [Event.copyFile complexPath (joinPath (s.design_paths "MPNN/Accepted") pdbFile),
         Event.copyFile relaxedPath
           (joinPath (s.design_paths "MPNN/Accepted") (name ++ "_relaxed.pdb")),
         Event.copyFile o.monomerPdb
           (joinPath (s.design_paths "MPNN/Accepted") (name ++ "_monomer.pdb")),
         Event.finalRow row]
      else []
    let cleanupComplex :=
      if s.remove_unrelaxed_complex then [Event.removeFile complexPath] else []
    let cleanupMonomer :=
      if s.remove_binder_monomer && !o.finalPass then [Event.removeFile o.monomerPdb] else []
    ([Event.predictComplex name, Event.predictMonomer name,
      Event.initialFilterLog name o.initialPass, Event.relaxCand name,
      Event.mpnnRow row, Event.finalFilterLog name o.finalPass]
       ++ acceptEvs ++ cleanupComplex ++ cleanupMonomer,
     o.finalPass)
  else
    ([Event.predictComplex name, Event.predictMonomer name, Event.failLog name], false)

/-- The MPNN candidate loop (`for i in range(len(mpnn_sequences))`) over the
enumerated candidates, threading the `mpnn_passes` counter and breaking as
soon as `mpnn_passes >= max_mpnn_sequences`.  Returns the emitted events and
the final counter. -/
def candLoop {α : Type} (s : Settings α) (ctx : TrajCtx α)
    (cands : Nat → CandOracle α) :
    List (Nat × (String × α)) → Nat → List (Event α) × Nat
  | [], passes => ([], passes)
  | x :: rest, passes =>
    if s.max_mpnn_sequences ≤ passes then ([], passes)
    else
      let st := candStep s ctx x.1 x.2.1 x.2.2 (cands x.1)
      let r := candLoop s ctx cands rest (if st.2 then passes + 1 else passes)
      (st.1 ++ r.1, r.2)

/-- Oracle for one trajectory: the result of `binder_hallucination`
(metrics availability, raw metric log, termination signal), the
trajectory-level scoring collaborators' outputs, and the MPNN redesign
collaborator's candidates with their per-candidate oracles. -/
structure TrajOracle (α : Type) where
  hasMetrics : Bool
  rawMetrics : List (String × α)
  auxHasLog : Bool
  terminate : Option String
  sequence : String
  interfaceResidues : α
  i_plddt : α
  ss_plddt : α
  num_clashes : α
  num_clashes_relaxed : α
  interfaceScores : String → α
  seqNotes : α
  ssAlpha : α
  ssBeta : α
  ssLoops : α
  ssAlphaI : α
  ssBetaI : α
  ssLoopsI : α
  targetRmsd : α
  timeText : String
  mpnnCandidates : List (String × α)
  cands : Nat → CandOracle α

/-- Oracle for one outer-loop iteration: the two stop-condition checks, the
sampled length and seed, the helicity value, the filesystem existence
predicate at the time of the dedup check, and the trajectory oracle. -/
structure IterOracle (α : Type) where
  finalReached : Bool
  maxTrajReached : Bool
  length : Nat
  seed : Nat
  helicity_value : α
  fileExists : String → Bool
  traj : TrajOracle α

/-- `design_name = binder_name + "_l" + str(length) + "_s" + str(seed)`. -/
def design_name {α : Type} (s : Settings α) (o : IterOracle α) : String :=
  s.binder_name ++ "_l" ++ toString o.length ++ "_s" ++ toString o.seed

/-- The four trajectory-stage directories checked by the dedup test. -/
def trajectory_dirs : List String :=
  ["Trajectory", "Trajectory/Relaxed", "Trajectory/LowConfidence", "Trajectory/Clashing"]

/-- `any(os.path.exists(os.path.join(design_paths[d], design_name + ".pdb"))
for d in trajectory_dirs)`. -/
def trajectory_exists {α : Type} (s : Settings α) (o : IterOracle α) : Bool :=
  trajectory_dirs.any
    (fun d => o.fileExists (joinPath (s.design_paths d) (design_name s o ++ ".pdb")))

/-- `{k: round(v, 2) if isinstance(v, float) else v for k, v in m.items()}`. -/
def roundMetrics {α : Type} (m : Model α) (l : List (String × α)) : List (String × α) :=
  l.map (fun kv => (kv.1, if m.isFloat kv.2 then m.round2 kv.2 else kv.2))

/-- `trajectory_metrics`: the rounded best-step log when the attribute chain
`trajectory._tmp["best"]["aux"]["log"]` exists, else the empty mapping. -/
def trajectoryMetrics {α : Type} (m : Model α) (t : TrajOracle α) : List (String × α) :=
  if t.hasMetrics then roundMetrics m t.rawMetrics else []

/-- `hasattr(trajectory, 'aux') and "log" in trajectory.aux and
trajectory.aux["log"].get("terminate", "Unknown") == ""`. -/
def trajProceed {α : Type} (t : TrajOracle α) : Bool :=
  t.auxHasLog && ((t.terminate.getD "Unknown") == "")

/-- The `trajectory_data` row (`no_filtering.py`, lines 175-183), field by
field in source order, over the rounded metrics mapping. -/
def trajectory_data {α : Type} (s : Settings α) (o : IterOracle α)
    (metrics : List (String × α)) : List (Cell α) :=
  [Cell.str (design_name s o), Cell.str s.design_algorithm, Cell.num o.length,
   Cell.num o.seed, Cell.val o.helicity_value, Cell.val s.target_hotspot_residues,
   Cell.str o.traj.sequence, Cell.val o.traj.interfaceResidues,
   Cell.opt (dictGet metrics "plddt"), Cell.opt (dictGet metrics "ptm"),
   Cell.opt (dictGet metrics "i_ptm"), Cell.opt (dictGet metrics "pae"),
   Cell.opt (dictGet metrics "i_pae"),
   Cell.val o.traj.i_plddt, Cell.val o.traj.ss_plddt,
   Cell.val o.traj.num_clashes, Cell.val o.traj.num_clashes_relaxed,
   Cell.val (o.traj.interfaceScores "binder_score"),
   Cell.val (o.traj.interfaceScores "surface_hydrophobicity"),
   Cell.val (o.traj.interfaceScores "interface_sc"),
   Cell.val (o.traj.interfaceScores "interface_packstat"),
   Cell.val (o.traj.interfaceScores "interface_dG"),
   Cell.val (o.traj.interfaceScores "interface_dSASA"),
   Cell.val (o.traj.interfaceScores "interface_dG_SASA_ratio"),
   Cell.val (o.traj.interfaceScores "interface_hb_bb_sc"),
   Cell.val (o.traj.interfaceScores "interface_hb_sc_sc"),
   Cell.val (o.traj.interfaceScores "interface_hb_bb_bb_longrange"),
   Cell.val (o.traj.interfaceScores "interface_hb_bb_bb_shortrange"),
   Cell.val o.traj.ssAlpha, Cell.val o.traj.ssBeta, Cell.val o.traj.ssLoops,
   Cell.val o.traj.ssAlphaI, Cell.val o.traj.ssBetaI, Cell.val o.traj.ssLoopsI,
   Cell.val o.traj.seqNotes, Cell.opt (dictGet metrics "helix_probability"),
   Cell.val o.traj.targetRmsd, Cell.str o.traj.timeText,
   Cell.opt (dictGet metrics "terminate")]

/-- The body of one outer-loop iteration after the two stop checks
(`no_filtering.py`, lines 99-333): dedup skip, hallucination, the
terminated-trajectory branch, trajectory relaxation/scoring and its single
`trajectory_csv` append, the MPNN sub-loop with its optional early stop, and
cleanup.  Returns the emitted events and the increment applied to
`trajectory_n`. -/
def iterationBody {α : Type} (m : Model α) (s : Settings α) (o : IterOracle α) :
    List (Event α) × Nat :=
  let name := design_name s o
  if trajectory_exists s o then
    ([Event.logSkip name], 0)
  else
    let t := o.traj
    let metrics := trajectoryMetrics m t
    if trajProceed t then
      let ctx : TrajCtx α := ⟨name, o.length, o.seed, o.helicity_value, metrics⟩
      let headEvs := [Event.hallucinate name, Event.relaxTraj name,
                      Event.trajRow (trajectory_data s o metrics)]
      if s.enable_mpnn then
        if stop_after_mpnn_generation s then
          (headEvs ++ [Event.mpnnGen name, Event.logStopAfterMpnn name], 1)
        else
          let r := candLoop s ctx t.cands t.mpnnCandidates.enum 0
          let cleanup :=
            if s.remove_unrelaxed_trajectory then
              [Event.removeFile (joinPath (s.design_paths "Trajectory") (name ++ ".pdb"))]
            else []
          (headEvs ++ [Event.mpnnGen name] ++ r.1 ++ cleanup, 1)
      else
        (headEvs, 1)
    else
      ([Event.hallucinate name, Event.logTerminated name], 1)

/-- Outcome of one full outer-loop iteration: either the loop breaks at one
of the two stop checks, or the body runs. -/
inductive IterOut (α : Type) where
  | stop : List (Event α) → IterOut α
  | go : List (Event α) → Nat → IterOut α
  deriving DecidableEq

/-- One full outer-loop iteration (`no_filtering.py`, lines 85-97 then the
body): `check_accepted_designs` is evaluated first and breaks the loop;
only when it is false is `check_n_trajectories` evaluated. -/
def designIteration {α : Type} (m : Model α) (s : Settings α) (o : IterOracle α) :
    IterOut α :=
  if o.finalReached then IterOut.stop [Event.checkQuota true]
  else if o.maxTrajReached then
    IterOut.stop [Event.checkQuota false, Event.checkBudget true]
  else
    let b := iterationBody m s o
    IterOut.go (Event.checkQuota false :: Event.checkBudget false :: b.1) b.2

/-- The outer `while True` loop, driven by a finite list of per-iteration
oracles, threading `trajectory_n`. -/
def designLoop {α : Type} (m : Model α) (s : Settings α) :
    List (IterOracle α) → Nat → List (Event α) × Nat
  | [], n => ([], n)
  | o :: rest, n =>
    match designIteration m s o with
    | IterOut.stop evs => (evs, n)
    | IterOut.go evs d =>
      let r := designLoop m s rest (n + d)
      (evs ++ r.1, r.2)

/-- Recognizer for `trajectory_csv` appends. -/
def isTrajRow {α : Type} : Event α → Bool
  | Event.trajRow _ => true
  | _ => false

/-- Recognizer for `final_csv` appends. -/
def isFinalRow {α : Type} : Event α → Bool
  | Event.finalRow _ => true
  | _ => false

/-- Recognizer for `mpnn_csv` appends. -/
def isMpnnRow {α : Type} : Event α → Bool
  | Event.mpnnRow _ => true
  | _ => false

/-- Recognizer for candidate relaxations. -/
def isRelaxCand {α : Type} : Event α → Bool
  | Event.relaxCand _ => true
  | _ => false

/-- Recognizer for complex-prediction calls. -/
def isPredictComplex {α : Type} : Event α → Bool
  | Event.predictComplex _ => true
  | _ => false

/-- Recognizer for file copies. -/
def isCopyFile {α : Type} : Event α → Bool
  | Event.copyFile _ _ => true
  | _ => false

/-- Recognizer for the advisory initial-filter log line. -/
def isInitialFilterLog {α : Type} : Event α → Bool
  | Event.initialFilterLog _ _ => true
  | _ => false

/-! ### Concrete instances used to exercise the model -/

/-- Numeric model for concrete runs: metric values are plain naturals. -/
def m0 : Model Nat := ⟨id, fun _ => false⟩

/-- A constant interface-score table for concrete runs. -/
def iface0 : String → Nat := fun _ => 5

/-- A candidate whose complex prediction succeeds and which passes both
filters. -/
def cand0 : CandOracle Nat where
  complexOk := true
  complexMetrics := [("plddt", 92), ("ptm", 80), ("i_ptm", 75), ("pae", 4), ("i_pae", 6)]
  monomerMetrics := [("plddt", 90), ("ptm", 82), ("pae", 5)]
  monomerPdb := "mono.pdb"
  initialPass := true
  finalPass := true
  interfaceResidues := 12
  i_plddt := 91
  ss_plddt := 89
  num_clashes := 0
  num_clashes_relaxed := 0
  interfaceScores := iface0
  seqNotes := 1
  ssAlpha := 60
  ssBeta := 10
  ssLoops := 30
  ssAlphaI := 70
  ssBetaI := 5
  ssLoopsI := 25
  binderRmsd := 1
  interfaceRmsd := 2
  targetRmsd := 1

/-- A candidate that is validated but rejected by the final filter. -/
def candReject : CandOracle Nat := { cand0 with finalPass := false }

/-- A candidate whose complex prediction fails (`None` structure path). -/
def candFail : CandOracle Nat := { cand0 with complexOk := false }

/-- A trajectory that proceeds normally and yields two MPNN candidates. -/
def traj0 : TrajOracle Nat where
  hasMetrics := true
  rawMetrics := [("plddt", 93), ("ptm", 81), ("i_ptm", 76), ("pae", 3), ("i_pae", 5),
                 ("helix_probability", 40), ("terminate", 0)]
  auxHasLog := true
  terminate := some ""
  sequence := "MKV"
  interfaceResidues := 11
  i_plddt := 90
  ss_plddt := 88
  num_clashes := 1
  num_clashes_relaxed := 0
  interfaceScores := iface0
  seqNotes := 2
  ssAlpha := 55
  ssBeta := 12
  ssLoops := 33
  ssAlphaI := 65
  ssBetaI := 8
  ssLoopsI := 27
  targetRmsd := 2
  timeText := "0 hours, 1 minutes, 5 seconds"
  mpnnCandidates := [("ACDE", 7), ("FGHI", 8)]
  cands := fun _ => cand0

/-- Baseline settings for concrete runs. -/
def s0 : Settings Nat where
  binder_name := "PDL1"
  design_paths := fun d => d
  design_algorithm := "4stage"
  target_hotspot_residues := 3
  enable_mpnn := true
  max_mpnn_sequences := 1
  advFlags := []
  remove_unrelaxed_complex := false
  remove_binder_monomer := false
  remove_unrelaxed_trajectory := false

/-- Baseline iteration oracle: no stop condition holds, the design is new,
the trajectory proceeds. -/
def o0 : IterOracle Nat where
  finalReached := false
  maxTrajReached := false
  length := 80
  seed := 42
  helicity_value := 0
  fileExists := fun _ => false
  traj := traj0

/-- Iteration oracle at which the accepted-designs quota is reached. -/
def oQuota : IterOracle Nat := { o0 with finalReached := true }

/-- Iteration oracle at which only the trajectory budget is exhausted. -/
def oBudget : IterOracle Nat := { o0 with maxTrajReached := true }

/-- Iteration oracle whose design name already exists on disk. -/
def oSkip : IterOracle Nat := { o0 with fileExists := fun _ => true }

/-- Iteration oracle whose trajectory carries a non-empty termination
signal. -/
def oTerm : IterOracle Nat :=
  { o0 with traj := { traj0 with terminate := some "loss hard constraint" } }

/-! ### Helper lemmas about the candidate loop -/

/-- A candidate step never appends to `trajectory_csv`. -/
theorem candStep_trajRow_count {α : Type} (s : Settings α) (ctx : TrajCtx α)
    (i : Nat) (seq : String) (score : α) (o : CandOracle α) :
    (candStep s ctx i seq score o).1.countP isTrajRow = 0 := by
  unfold candStep
  cases hc : o.complexOk <;>
    cases hf : o.finalPass <;>
      cases hrc : s.remove_unrelaxed_complex <;>
        cases hrm : s.remove_binder_monomer <;>
          simp [hc, hf, hrc, hrm, isTrajRow, List.countP_append, List.countP_cons]

/-- A candidate step appends to `final_csv` exactly when it reports an
acceptance. -/
theorem candStep_finalRow_count {α : Type} (s : Settings α) (ctx : TrajCtx α)
    (i : Nat) (seq : String) (score : α) (o : CandOracle α) :
    (candStep s ctx i seq score o).1.countP isFinalRow
      = if (candStep s ctx i seq score o).2 then 1 else 0 := by
  unfold candStep
  cases hc : o.complexOk <;>
    cases hf : o.finalPass <;>
      cases hrc : s.remove_unrelaxed_complex <;>
        cases hrm : s.remove_binder_monomer <;>
          simp [hc, hf, hrc, hrm, isFinalRow, List.countP_append, List.countP_cons]

/-- The candidate loop never appends to `trajectory_csv`. -/
theorem candLoop_trajRow_count {α : Type} (s : Settings α) (ctx : TrajCtx α)
    (cands : Nat → CandOracle α) :
    ∀ (items : List (Nat × (String × α))) (passes : Nat),
      (candLoop s ctx cands items passes).1.countP isTrajRow = 0 := by
  intro items
  induction items with
  | nil => intro passes; simp [candLoop]
  | cons x rest ih =>
    intro passes
    unfold candLoop
    by_cases h : s.max_mpnn_sequences ≤ passes
    · rw [if_pos h]; simp
    · rw [if_neg h]
      simp only [List.countP_append, candStep_trajRow_count, ih]

/-- Once `mpnn_passes` has reached `max_mpnn_sequences`, the candidate loop
emits nothing and leaves the counter unchanged. -/
theorem candLoop_break {α : Type} (s : Settings α) (ctx : TrajCtx α)
    (cands : Nat → CandOracle α) (items : List (Nat × (String × α)))
    (passes : Nat) (h : s.max_mpnn_sequences ≤ passes) :
    candLoop s ctx cands items passes = ([], passes) := by
  cases items with
  | nil => rfl
  | cons x rest => unfold candLoop; rw [if_pos h]

/-- The candidate loop appends at most `max_mpnn_sequences - passes` rows to
`final_csv`. -/
theorem candLoop_finalRow_le {α : Type} (s : Settings α) (ctx : TrajCtx α)
    (cands : Nat → CandOracle α) :
    ∀ (items : List (Nat × (String × α))) (passes : Nat),
      (candLoop s ctx cands items passes).1.countP isFinalRow
        ≤ s.max_mpnn_sequences - passes := by
  intro items
  induction items with
  | nil => intro passes; simp [candLoop]
  | cons x rest ih =>
    intro passes
    unfold candLoop
    by_cases h : s.max_mpnn_sequences ≤ passes
    · rw [if_pos h]; simp
    · rw [if_neg h]
      simp only [List.countP_append, candStep_finalRow_count]
      cases hacc : (candStep s ctx x.1 x.2.1 x.2.2 (cands x.1)).2
      · have hrec := ih passes
        try simp
        omega
      · have hrec := ih (passes + 1)
        try simp
        omega

/-! ### Claim theorems -/

/-- C1: when the trajectory artifact `<design_name>.pdb` already exists in
one of the four trajectory-stage directories, the iteration never invokes
`binder_hallucination`: its body is exactly the skip log line, and the full
iteration (stop checks included) continues the loop with no generation
call. -/
theorem dedup_skip_no_generation {α : Type} (m : Model α) (s : Settings α)
    (o : IterOracle α) (h : trajectory_exists s o = true) :
    iterationBody m s o = ([Event.logSkip (design_name s o)], 0) ∧
    (∀ nm, Event.hallucinate nm ∉ (iterationBody m s o).1) ∧
    (o.finalReached = false → o.maxTrajReached = false →
      designIteration m s o =
        IterOut.go [Event.checkQuota false, Event.checkBudget false,
                    Event.logSkip (design_name s o)] 0) := by
  refine ⟨?_, ?_, ?_⟩
  · simp [iterationBody, h]
  · intro nm
    simp [iterationBody, h]
  · intro h1 h2
    simp [designIteration, h1, h2, iterationBody, h]

/-- Witness for C1 at a concrete oracle whose design already exists. -/
theorem dedup_skip_no_generation_witness :
    trajectory_exists s0 oSkip = true ∧
    iterationBody m0 s0 oSkip = ([Event.logSkip (design_name s0 oSkip)], 0) ∧
    designIteration m0 s0 oSkip =
      IterOut.go [Event.checkQuota false, Event.checkBudget false,
                  Event.logSkip (design_name s0 oSkip)] 0 := by
  have h := dedup_skip_no_generation m0 s0 oSkip (by decide)
  exact ⟨by decide, h.1, h.2.2 rfl rfl⟩

/-- C3: the quota stop condition is evaluated at the top of the iteration,
before the budget stop condition, and as soon as either holds the loop
performs no further iterations: the trace ends at the check events and the
remaining oracles are never consumed. -/
theorem stop_conditions_order {α : Type} (m : Model α) (s : Settings α)
    (o : IterOracle α) (rest : List (IterOracle α)) (n : Nat)
    (h : o.finalReached = true ∨ o.maxTrajReached = true) :
    designLoop m s (o :: rest) n =
      ((if o.finalReached then [Event.checkQuota true]
        else [Event.checkQuota false, Event.checkBudget true]), n) := by
  rcases h with h | h
  · simp [designLoop, designIteration, h]
  · cases hf : o.finalReached
    · simp [designLoop, designIteration, hf, h]
    · simp [designLoop, designIteration, hf]

/-- Witness for C3: with the quota reached, the loop stops after the quota
check alone, evaluating no budget check and consuming no further
iteration. -/
theorem stop_conditions_order_witness :
    designLoop m0 s0 [oQuota, o0] 0 = ([Event.checkQuota true], 0) := by
  have h := stop_conditions_order m0 s0 oQuota [o0] 0 (Or.inl rfl)
  simpa using h

/-- C8 (amended): the trajectory counter is incremented by exactly one after
every iteration whose body ran the generation collaborator (full
completion, early MPNN stop, or termination signal), but is NOT incremented
when the iteration was a duplicate skip. -/
theorem traj_counter_increment {α : Type} (m : Model α) (s : Settings α)
    (o : IterOracle α) :
    (iterationBody m s o).2 = if trajectory_exists s o then 0 else 1 := by
  unfold iterationBody
  cases hex : trajectory_exists s o
  · cases hp : trajProceed o.traj
    · simp [hp]
    · cases he : s.enable_mpnn
      · simp [hp, he]
      · cases hs : stop_after_mpnn_generation s <;> simp [hp, he, hs]
  · simp

/-- Counterexample to C8 as stated: at a duplicate-skip iteration the
counter increment is 0, not 1. -/
theorem traj_counter_skip_cex :
    trajectory_exists s0 oSkip = true ∧ ¬(iterationBody m0 s0 oSkip).2 = 1 := by
  decide

/-- Concrete per-trajectory context for the MPNN sub-loop. -/
def ctx0 : TrajCtx Nat :=
  ⟨"PDL1_l80_s42", 80, 42, 0, [("plddt", 93), ("helix_probability", 40)]⟩

/-- C4 (amended): a non-skipped trajectory writes exactly one record to
`trajectory_csv` when it carries an empty termination signal, and none when
the termination signal is non-empty (or the aux log is missing). -/
theorem traj_record_iff_proceed {α : Type} (m : Model α) (s : Settings α)
    (o : IterOracle α) (h : trajectory_exists s o = false) :
    (iterationBody m s o).1.countP isTrajRow
      = if trajProceed o.traj then 1 else 0 := by
  unfold iterationBody
  simp only [h, Bool.false_eq_true, if_false]
  cases hp : trajProceed o.traj
  · simp [isTrajRow]
  · cases he : s.enable_mpnn
    · simp [he, isTrajRow]
    · cases hs : stop_after_mpnn_generation s
      · cases hrt : s.remove_unrelaxed_trajectory <;>
          simp [he, hs, hrt, isTrajRow, List.countP_append, candLoop_trajRow_count]
      · simp [he, hs, isTrajRow]

/-- Witness for C4 (amended) at a trajectory that proceeds normally. -/
theorem traj_record_iff_proceed_witness :
    trajectory_exists s0 o0 = false ∧
    (iterationBody m0 s0 o0).1.countP isTrajRow
      = if trajProceed o0.traj then 1 else 0 := by
  exact ⟨by decide, traj_record_iff_proceed m0 s0 o0 (by decide)⟩

/-- Counterexample to C4 as stated: a trajectory with a non-empty
termination signal invokes the generation collaborator but writes no
trajectory record at all. -/
theorem traj_record_terminated_cex :
    Event.hallucinate (design_name s0 oTerm) ∈ (iterationBody m0 s0 oTerm).1 ∧
    trajProceed oTerm.traj = false ∧
    ¬(iterationBody m0 s0 oTerm).1.countP isTrajRow = 1 := by
  decide

/-- C2 (amended): the candidate loop appends at most `max_mpnn_sequences`
rows to `final_csv`, and once the acceptance counter has reached the cap it
evaluates no further candidate and emits no further event; but candidates
rejected by the final filter do not advance the counter, so more than
`max_mpnn_sequences` candidates may be validated. -/
theorem acceptance_cap {α : Type} (s : Settings α) (ctx : TrajCtx α)
    (cands : Nat → CandOracle α) (items : List (Nat × (String × α))) :
    (candLoop s ctx cands items 0).1.countP isFinalRow ≤ s.max_mpnn_sequences ∧
    (∀ (more : List (Nat × (String × α))) (passes : Nat),
        s.max_mpnn_sequences ≤ passes →
        candLoop s ctx cands more passes = ([], passes)) := by
  constructor
  · have h := candLoop_finalRow_le s ctx cands items 0
    simpa using h
  · intro more passes hp
    exact candLoop_break s ctx cands more passes hp

/-- Witness for C2 (amended): two candidates, cap 1. -/
theorem acceptance_cap_witness :
    (candLoop s0 ctx0 (fun _ => cand0)
        [(0, ("ACDE", 7)), (1, ("FGHI", 8))] 0).1.countP isFinalRow
      ≤ s0.max_mpnn_sequences ∧
    candLoop s0 ctx0 (fun _ => cand0) [(1, ("FGHI", 8))] 1 = ([], 1) := by
  have h := acceptance_cap s0 ctx0 (fun _ => cand0) [(0, ("ACDE", 7)), (1, ("FGHI", 8))]
  exact ⟨h.1, h.2 [(1, ("FGHI", 8))] 1 (by decide)⟩

/-- Counterexample to C2 as stated: with K = 2 candidates and cap C = 1,
when both candidates fail the final filter both are validated (both are
relaxed and scored), so more than C candidates are validated. -/
theorem acceptance_cap_cex :
    s0.max_mpnn_sequences
        ≤ ([(0, ("ACDE", 7)), (1, ("FGHI", 8))] : List (Nat × (String × Nat))).length ∧
    ¬((candLoop s0 ctx0 (fun _ => candReject)
          [(0, ("ACDE", 7)), (1, ("FGHI", 8))] 0).1.countP isRelaxCand
        ≤ s0.max_mpnn_sequences) := by
  decide

/-- C7: when the complex prediction returns no structure, the candidate
step consists of the two prediction calls and the failure log only — no
relaxation, no `mpnn_csv` or `final_csv` row, no acceptance — and the
candidate loop continues with the remaining candidates at an unchanged
acceptance counter. -/
theorem prediction_failure_skips {α : Type} (s : Settings α) (ctx : TrajCtx α)
    (cands : Nat → CandOracle α) (i : Nat) (seq : String) (score : α)
    (rest : List (Nat × (String × α))) (passes : Nat)
    (hc : (cands i).complexOk = false) (hp : passes < s.max_mpnn_sequences) :
    candStep s ctx i seq score (cands i) =
      ([Event.predictComplex (ctx.design_name ++ "_mpnn_" ++ toString i),
        Event.predictMonomer (ctx.design_name ++ "_mpnn_" ++ toString i),
        Event.failLog (ctx.design_name ++ "_mpnn_" ++ toString i)], false) ∧
    candLoop s ctx cands ((i, (seq, score)) :: rest) passes =
      ((candStep s ctx i seq score (cands i)).1 ++ (candLoop s ctx cands rest passes).1,
       (candLoop s ctx cands rest passes).2) := by
  have h2 : (candStep s ctx i seq score (cands i)).2 = false := by
    simp [candStep, hc]
  constructor
  · simp [candStep, hc]
  · simp only [candLoop]
    rw [if_neg (not_le.mpr hp)]
    simp [h2]

/-- Witness for C7 at a concrete failing candidate. -/
theorem prediction_failure_skips_witness :
    candStep s0 ctx0 0 "ACDE" 7 candFail =
      ([Event.predictComplex (ctx0.design_name ++ "_mpnn_" ++ toString 0),
        Event.predictMonomer (ctx0.design_name ++ "_mpnn_" ++ toString 0),
        Event.failLog (ctx0.design_name ++ "_mpnn_" ++ toString 0)], false) ∧
    candLoop s0 ctx0 (fun _ => candFail) [(0, ("ACDE", 7)), (1, ("FGHI", 8))] 0 =
      ((candStep s0 ctx0 0 "ACDE" 7 candFail).1 ++
         (candLoop s0 ctx0 (fun _ => candFail) [(1, ("FGHI", 8))] 0).1,
       (candLoop s0 ctx0 (fun _ => candFail) [(1, ("FGHI", 8))] 0).2) := by
  have h := prediction_failure_skips s0 ctx0 (fun _ => candFail) 0 "ACDE" 7
      [(1, ("FGHI", 8))] 0 (by decide) (by decide)
  exact ⟨h.1, h.2⟩

/-- C5: for a candidate whose complex prediction succeeded, the initial
filter outcome is only logged: the `mpnn_csv` row and the relaxation happen
in every case, and flipping the initial-filter verdict changes nothing in
the emitted trace except the logged boolean, nor the acceptance outcome. -/
theorem initial_filter_advisory {α : Type} (s : Settings α) (ctx : TrajCtx α)
    (i : Nat) (seq : String) (score : α) (o : CandOracle α)
    (hc : o.complexOk = true) :
    Event.mpnnRow (mpnn_data s ctx i seq score o) ∈ (candStep s ctx i seq score o).1 ∧
    Event.relaxCand (ctx.design_name ++ "_mpnn_" ++ toString i)
      ∈ (candStep s ctx i seq score o).1 ∧
    (∀ b : Bool,
      (candStep s ctx i seq score { o with initialPass := b }).1.filter
          (fun e => !isInitialFilterLog e)
        = (candStep s ctx i seq score o).1.filter (fun e => !isInitialFilterLog e) ∧
      (candStep s ctx i seq score { o with initialPass := b }).2
        = (candStep s ctx i seq score o).2) := by
  cases o with
  | mk co cm mm mp ip fp ir ipl sspl nc ncr ifs sn a1 a2 a3 a4 a5 a6 br irm tr =>
    simp only at hc
    subst hc
    refine ⟨?_, ?_, ?_⟩
    · simp [candStep]
    · simp [candStep]
    · intro b
      constructor
      · cases fp <;> cases hrc : s.remove_unrelaxed_complex <;>
          cases hrm : s.remove_binder_monomer <;>
            simp [candStep, mpnn_data, hrc, hrm, isInitialFilterLog, List.filter_append]
      · simp [candStep]

/-- Witness for C5 at a concrete candidate: the per-sequence row is written
and the trace (minus the advisory log line) is unchanged when the initial
filter fails instead of passing. -/
theorem initial_filter_advisory_witness :
    Event.mpnnRow (mpnn_data s0 ctx0 0 "ACDE" 7 cand0)
      ∈ (candStep s0 ctx0 0 "ACDE" 7 cand0).1 ∧
    (candStep s0 ctx0 0 "ACDE" 7 { cand0 with initialPass := false }).1.filter
        (fun e => !isInitialFilterLog e)
      = (candStep s0 ctx0 0 "ACDE" 7 cand0).1.filter (fun e => !isInitialFilterLog e) := by
  have h := initial_filter_advisory s0 ctx0 0 "ACDE" 7 cand0 (by decide)
  exact ⟨h.1, (h.2.2 false).1⟩

/-- C6: for a validated candidate, the final filter is the hard gate: on
pass, the three artifacts are copied into `MPNN/Accepted`, the row is
appended to `final_csv` (exactly once), and the acceptance flag is set; on
fail, no copy and no `final_csv` row happen and the acceptance flag is
clear — while the `mpnn_csv` row was appended in either case. -/
theorem final_filter_gate {α : Type} (s : Settings α) (ctx : TrajCtx α)
    (i : Nat) (seq : String) (score : α) (o : CandOracle α)
    (hc : o.complexOk = true) :
    Event.mpnnRow (mpnn_data s ctx i seq score o) ∈ (candStep s ctx i seq score o).1 ∧
    (candStep s ctx i seq score o).2 = o.finalPass ∧
    (o.finalPass = true →
      Event.copyFile
          (joinPath (s.design_paths "MPNN/Complex")
            ((ctx.design_name ++ "_mpnn_" ++ toString i) ++ ".pdb"))
          (joinPath (s.design_paths "MPNN/Accepted")
            ((ctx.design_name ++ "_mpnn_" ++ toString i) ++ ".pdb"))
        ∈ (candStep s ctx i seq score o).1 ∧
      Event.copyFile
          (joinPath (s.design_paths "MPNN/Relaxed")
            ((ctx.design_name ++ "_mpnn_" ++ toString i) ++ ".pdb"))
          (joinPath (s.design_paths "MPNN/Accepted")
            ((ctx.design_name ++ "_mpnn_" ++ toString i) ++ "_relaxed.pdb"))
        ∈ (candStep s ctx i seq score o).1 ∧
      Event.copyFile o.monomerPdb
          (joinPath (s.design_paths "MPNN/Accepted")
            ((ctx.design_name ++ "_mpnn_" ++ toString i) ++ "_monomer.pdb"))
        ∈ (candStep s ctx i seq score o).1 ∧
      Event.finalRow (mpnn_data s ctx i seq score o) ∈ (candStep s ctx i seq score o).1 ∧
      (candStep s ctx i seq score o).1.countP isFinalRow = 1) ∧
    (o.finalPass = false →
      (candStep s ctx i seq score o).1.countP isCopyFile = 0 ∧
      (candStep s ctx i seq score o).1.countP isFinalRow = 0) := by
  refine ⟨?_, ?_, ?_, ?_⟩
  · simp [candStep, hc]
  · simp [candStep, hc]
  · intro hf
    refine ⟨?_, ?_, ?_, ?_, ?_⟩ <;>
      cases hrc : s.remove_unrelaxed_complex <;>
        cases hrm : s.remove_binder_monomer <;>
          simp [candStep, hc, hf, hrc, hrm, isFinalRow, isCopyFile,
                List.countP_append, List.countP_cons]
  · intro hf
    constructor <;>
      cases hrc : s.remove_unrelaxed_complex <;>
        cases hrm : s.remove_binder_monomer <;>
          simp [candStep, hc, hf, hrc, hrm, isFinalRow, isCopyFile,
                List.countP_append, List.countP_cons]

/-- Witness for C6: a passing candidate yields the `final_csv` row and the
acceptance flag; a rejected candidate yields neither a copy nor a
`final_csv` row. -/
theorem final_filter_gate_witness :
    (candStep s0 ctx0 0 "ACDE" 7 cand0).2 = true ∧
    Event.finalRow (mpnn_data s0 ctx0 0 "ACDE" 7 cand0)
      ∈ (candStep s0 ctx0 0 "ACDE" 7 cand0).1 ∧
    (candStep s0 ctx0 0 "ACDE" 7 candReject).2 = false ∧
    (candStep s0 ctx0 0 "ACDE" 7 candReject).1.countP isCopyFile = 0 ∧
    (candStep s0 ctx0 0 "ACDE" 7 candReject).1.countP isFinalRow = 0 := by
  have h1 := final_filter_gate s0 ctx0 0 "ACDE" 7 cand0 (by decide)
  have h2 := final_filter_gate s0 ctx0 0 "ACDE" 7 candReject (by decide)
  exact ⟨h1.2.1.trans rfl, (h1.2.2.1 rfl).2.2.2.1, h2.2.1.trans rfl,
         (h2.2.2.2 rfl).1, (h2.2.2.2 rfl).2⟩

/-- Settings with the early-stop flag present and set. -/
def sStop : Settings Nat := { s0 with advFlags := [("stop_after_mpnn_generation", true)] }

/-- C9: when `stop_after_mpnn_generation` is true — the flag defaulting to
false when absent from the advanced settings — the sub-loop ends right
after the redesign collaborator returns: the iteration's trace stops at the
early-stop log, no candidate is predicted, no `mpnn_csv` or `final_csv`
row is written, and the trajectory counter still advances by one. -/
theorem stop_after_mpnn_early_exit {α : Type} (m : Model α) (s : Settings α)
    (o : IterOracle α) (hx : trajectory_exists s o = false)
    (hp : trajProceed o.traj = true) (he : s.enable_mpnn = true)
    (hs : stop_after_mpnn_generation s = true) :
    iterationBody m s o =
      ([Event.hallucinate (design_name s o), Event.relaxTraj (design_name s o),
        Event.trajRow (trajectory_data s o (trajectoryMetrics m o.traj)),
        Event.mpnnGen (design_name s o), Event.logStopAfterMpnn (design_name s o)], 1) ∧
    (iterationBody m s o).1.countP isPredictComplex = 0 ∧
    (iterationBody m s o).1.countP isMpnnRow = 0 ∧
    (iterationBody m s o).1.countP isFinalRow = 0 ∧
    (∀ s2 : Settings α, dictGet s2.advFlags "stop_after_mpnn_generation" = none →
        stop_after_mpnn_generation s2 = false) := by
  have hbody : iterationBody m s o =
      ([Event.hallucinate (design_name s o), Event.relaxTraj (design_name s o),
        Event.trajRow (trajectory_data s o (trajectoryMetrics m o.traj)),
        Event.mpnnGen (design_name s o), Event.logStopAfterMpnn (design_name s o)], 1) := by
    unfold iterationBody
    simp [hx, hp, he, hs]
  refine ⟨hbody, ?_, ?_, ?_, ?_⟩
  · rw [hbody]; simp [isPredictComplex]
  · rw [hbody]; simp [isMpnnRow]
  · rw [hbody]; simp [isFinalRow]
  · intro s2 h2
    simp [stop_after_mpnn_generation, h2]

/-- Witness for C9 at concrete settings with the flag set, plus the
absent-flag default at the baseline settings. -/
theorem stop_after_mpnn_early_exit_witness :
    iterationBody m0 sStop o0 =
      ([Event.hallucinate (design_name sStop o0), Event.relaxTraj (design_name sStop o0),
        Event.trajRow (trajectory_data sStop o0 (trajectoryMetrics m0 o0.traj)),
        Event.mpnnGen (design_name sStop o0), Event.logStopAfterMpnn (design_name sStop o0)], 1) ∧
    stop_after_mpnn_generation s0 = false := by
  have h := stop_after_mpnn_early_exit m0 sStop o0 (by decide) (by decide)
      (by decide) (by decide)
  exact ⟨h.1, h.2.2.2.2 s0 (by decide)⟩

/-- C10: every `mpnn_csv` row a candidate step writes carries, as its last
field, the helix probability looked up in the originating trajectory's
(rounded) metric mapping — `None` when absent — not anything from the
candidate's own complex-prediction metrics; hence it is identical for all
candidates of one trajectory. -/
theorem helix_probability_from_trajectory {α : Type} (s : Settings α)
    (ctx : TrajCtx α) (i : Nat) (seq : String) (score : α) (o : CandOracle α)
    (r : List (Cell α)) (h : Event.mpnnRow r ∈ (candStep s ctx i seq score o).1) :
    r.getLast? = some (Cell.opt (dictGet ctx.trajMetrics "helix_probability")) := by
  cases hc : o.complexOk
  · simp [candStep, hc] at h
  · cases hf : o.finalPass <;>
      cases hrc : s.remove_unrelaxed_complex <;>
        cases hrm : s.remove_binder_monomer <;>
          · simp [candStep, hc, hf, hrc, hrm] at h
            subst h
            rfl

/-- Witness for C10: a concrete row written by a candidate step, whose last
field is the trajectory mapping's helix probability. -/
theorem helix_probability_from_trajectory_witness :
    Event.mpnnRow (mpnn_data s0 ctx0 0 "ACDE" 7 cand0)
      ∈ (candStep s0 ctx0 0 "ACDE" 7 cand0).1 ∧
    (mpnn_data s0 ctx0 0 "ACDE" 7 cand0).getLast?
      = some (Cell.opt (dictGet ctx0.trajMetrics "helix_probability")) := by
  refine ⟨by decide, helix_probability_from_trajectory s0 ctx0 0 "ACDE" 7 cand0 _ (by decide)⟩

end BindCraft
